import Mathlib

/-!
# go-donut: the instance data model (`donut/types.go`)

A shallow embedding of the constants, struct declarations, import catalog and
GUID table of `donut/types.go`, and the properties of that data the instance
construction relies on.

* Go strings are Lean `String`s; `len(s)` is the UTF-8 byte count.
* Go fixed-width types are values of `GoType`; the width of a value is
  `GoType.size`.
* `uuid.UUID` is `[16]byte`; a GUID constant is the list of its 16 bytes.
* `CipherKeyLen` and `CipherBlockLen` are declared in another file of the
  package; the struct declarations take them as parameters.
-/

namespace Donut

/-! ## Constants (types.go, lines 9-37) -/

def DONUT_MAX_PARAM : Nat := 8
def DONUT_MAX_NAME : Nat := 256
def DONUT_MAX_DLL : Nat := 8
def DONUT_MAX_URL : Nat := 256
def DONUT_MAX_MODNAME : Nat := 8
def DONUT_SIG_LEN : Nat := 8
def DONUT_VER_LEN : Nat := 32
def DONUT_DOMAIN_LEN : Nat := 8

def MARU_MAX_STR : Nat := 64
def MARU_BLK_LEN : Nat := 16
def MARU_HASH_LEN : Nat := 8
def MARU_IV_LEN : Nat := 8

def DONUT_RUNTIME_NET4 : String := "v4.0.30319"

def NTDLL_DLL : String := "ntdll.dll"
def KERNEL32_DLL : String := "kernel32.dll"
def ADVAPI32_DLL : String := "advapi32.dll"
def CRYPT32_DLL : String := "crypt32.dll"
def MSCOREE_DLL : String := "mscoree.dll"
def OLE32_DLL : String := "ole32.dll"
def OLEAUT32_DLL : String := "oleaut32.dll"
def WININET_DLL : String := "wininet.dll"
def COMBASE_DLL : String := "combase.dll"
def USER32_DLL : String := "user32.dll"
def SHLWAPI_DLL : String := "shlwapi.dll"

/-- The DLL name constants of the const block, in declaration order
(`NTDLL_DLL` through `SHLWAPI_DLL`). -/
def dllNameConstants : List String :=
  [NTDLL_DLL, KERNEL32_DLL, ADVAPI32_DLL, CRYPT32_DLL, MSCOREE_DLL, OLE32_DLL,
   OLEAUT32_DLL, WININET_DLL, COMBASE_DLL, USER32_DLL, SHLWAPI_DLL]

/-- Go's `len(s)` for a string: the number of bytes of its UTF-8 encoding. -/
def goLen (s : String) : Nat := s.utf8ByteSize

/-! ## The import catalog (types.go, lines 179-222) -/

/-- The struct `API_IMPORT`: a module (DLL) name and a function name. -/
structure API_IMPORT where
  Module : String
  Name : String
deriving DecidableEq, Repr

/-- The package variable `api_imports`. -/
def api_imports : List API_IMPORT := [
  { Module := KERNEL32_DLL, Name := "LoadLibraryA" },
  { Module := KERNEL32_DLL, Name := "GetProcAddress" },
  { Module := KERNEL32_DLL, Name := "GetModuleHandleA" },
  { Module := KERNEL32_DLL, Name := "VirtualAlloc" },
  { Module := KERNEL32_DLL, Name := "VirtualFree" },
  { Module := KERNEL32_DLL, Name := "VirtualQuery" },
  { Module := KERNEL32_DLL, Name := "VirtualProtect" },
  { Module := KERNEL32_DLL, Name := "Sleep" },
  { Module := KERNEL32_DLL, Name := "MultiByteToWideChar" },
  { Module := KERNEL32_DLL, Name := "GetUserDefaultLCID" },

  { Module := OLEAUT32_DLL, Name := "SafeArrayCreate" },
  { Module := OLEAUT32_DLL, Name := "SafeArrayCreateVector" },
  { Module := OLEAUT32_DLL, Name := "SafeArrayPutElement" },
  { Module := OLEAUT32_DLL, Name := "SafeArrayDestroy" },
  { Module := OLEAUT32_DLL, Name := "SafeArrayGetLBound" },
  { Module := OLEAUT32_DLL, Name := "SafeArrayGetUBound" },
  { Module := OLEAUT32_DLL, Name := "SysAllocString" },
  { Module := OLEAUT32_DLL, Name := "SysFreeString" },
  { Module := OLEAUT32_DLL, Name := "LoadTypeLib" },

  { Module := WININET_DLL, Name := "InternetCrackUrlA" },
  { Module := WININET_DLL, Name := "InternetOpenA" },
  { Module := WININET_DLL, Name := "InternetConnectA" },
  { Module := WININET_DLL, Name := "InternetSetOptionA" },
  { Module := WININET_DLL, Name := "InternetReadFile" },
  { Module := WININET_DLL, Name := "InternetCloseHandle" },
  { Module := WININET_DLL, Name := "HttpOpenRequestA" },
  { Module := WININET_DLL, Name := "HttpSendRequestA" },
  { Module := WININET_DLL, Name := "HttpQueryInfoA" },

  { Module := MSCOREE_DLL, Name := "CorBindToRuntime" },
  { Module := MSCOREE_DLL, Name := "CLRCreateInstance" },

  { Module := OLE32_DLL, Name := "CoInitializeEx" },
  { Module := OLE32_DLL, Name := "CoCreateInstance" },
  { Module := OLE32_DLL, Name := "CoUninitialize" }
]

/-- Modelled from the spec: the hash table builder is not part of `types.go`;
section 4.2 gives the keyed-hash input of a catalog entry as
`moduleName + "!" + functionName`. -/
def hashInput (a : API_IMPORT) : String := a.Module ++ "!" ++ a.Name

/-! ## Fixed-width Go types and the struct declarations (types.go, lines 93-177) -/

/-- The Go types occurring in the struct declarations of `types.go`. -/
inductive GoType where
  | byte : GoType
  | uint16 : GoType
  | uint32 : GoType
  | uint64 : GoType
  | int : GoType
  | array : Nat → GoType → GoType
  | struct : List (String × GoType) → GoType

/-- The number of bytes a value of a Go type occupies: `byte` 1, `uint16` 2,
`uint32` 4, `uint64` 8, `int` the platform word (`intSize`), an array its
length times its element, a struct the sum of its fields (no padding is
counted). -/
def GoType.size (intSize : Nat) : GoType → Nat
  | .byte => 1
  | .uint16 => 2
  | .uint32 => 4
  | .uint64 => 8
  | .int => intSize
  | .array n t => n * t.size intSize
  | .struct fs => sizeFields fs
where
  /-- The sum of the sizes of a field list. -/
  sizeFields : List (String × GoType) → Nat
    | [] => 0
    | (_, t) :: rest => t.size intSize + sizeFields rest

/-- The number of elements of an array type (`len` of the array), none for
any other type. -/
def GoType.arrayLen : GoType → Option Nat
  | .array n _ => some n
  | _ => none

/-- The element type of an array type, none for any other type. -/
def GoType.elem : GoType → Option GoType
  | .array _ t => some t
  | _ => none

/-- An index expression `a[i]` on a value of the type is in range: the type
is an array and `i` is below its length. -/
def GoType.hasIndex : GoType → Nat → Bool
  | .array n _, i => decide (i < n)
  | _, _ => false

/-- The type of the field with the given name in a field list. -/
def fieldType : List (String × GoType) → String → Option GoType
  | [], _ => none
  | (n, t) :: rest, name => if n = name then some t else fieldType rest name

/-- The type `uuid.UUID` of github.com/google/uuid: `[16]byte`. -/
def UUID : GoType := .array 16 .byte

/-- The fields of `DonutModule`, in declaration order. -/
def DonutModule : List (String × GoType) := [
  ("Type", .uint32),
  ("Runtime", .array DONUT_MAX_NAME .uint16),
  ("Domain", .array DONUT_MAX_NAME .uint16),
  ("Cls", .array DONUT_MAX_NAME .uint16),
  ("Method", .array (DONUT_MAX_NAME * 2) .byte),
  ("ParamCount", .uint32),
  ("Param", .array DONUT_MAX_PARAM (.array DONUT_MAX_NAME .uint16)),
  ("Sig", .array DONUT_MAX_NAME .byte),
  ("Mac", .uint64),
  ("Len", .uint64),
  ("Data", .array 4 .byte)
]

/-- The fields of `DonutCrypt`, in declaration order. -/
def DonutCrypt (CipherKeyLen CipherBlockLen : Nat) : List (String × GoType) := [
  ("Mk", .array CipherKeyLen .byte),
  ("Ctr", .array CipherBlockLen .byte)
]

/-- The fields of `DonutInstance`, in declaration order. The first four are
the plaintext header; the comment `everything from here is encrypted`
follows `Hash`. -/
def DonutInstance (CipherKeyLen CipherBlockLen : Nat) : List (String × GoType) := [
  ("Len", .uint32),
  ("Key", .struct (DonutCrypt CipherKeyLen CipherBlockLen)),
  ("Iv", .array 8 .byte),
  ("Hash", .array 64 .uint64),

  ("ApiCount", .int),
  ("DllCount", .int),
  ("DllName", .array DONUT_MAX_DLL (.array 32 .byte)),

  ("s", .array 8 .byte),

  ("bypass", .int),
  ("clr", .array 8 .byte),
  ("wldp", .array 16 .byte),
  ("wldpQuery", .array 32 .byte),
  ("wldpIsApproved", .array 32 .byte),
  ("amsiInit", .array 16 .byte),
  ("amsiScanBuf", .array 16 .byte),
  ("amsiScanStr", .array 16 .byte),

  ("wscript", .array 8 .uint16),
  ("wscript_exe", .array 16 .uint16),

  ("xIID_IUnknown", UUID),
  ("xIID_IDispatch", UUID),

  ("xCLSID_CLRMetaHost", UUID),
  ("xIID_ICLRMetaHost", UUID),
  ("xIID_ICLRRuntimeInfo", UUID),
  ("xCLSID_CorRuntimeHost", UUID),
  ("xIID_ICorRuntimeHost", UUID),
  ("xIID_AppDomain", UUID),

  ("xCLSID_ScriptLanguage", UUID),
  ("xIID_IHost", UUID),
  ("xIID_IActiveScript", UUID),
  ("xIID_IActiveScriptSite", UUID),
  ("xIID_IActiveScriptSiteWindow", UUID),
  ("xIID_IActiveScriptParse32", UUID),
  ("xIID_IActiveScriptParse64", UUID),

  ("xCLSID_DOMDocument30", UUID),
  ("xIID_IXMLDOMDocument", UUID),
  ("xIID_IXMLDOMNode", UUID),

  ("Type", .int),

  ("Url", .array DONUT_MAX_URL .byte),
  ("Req", .array 8 .byte),

  ("sig", .array DONUT_MAX_NAME .byte),
  ("mac", .uint64),

  ("mod_key", .struct (DonutCrypt CipherKeyLen CipherBlockLen)),
  ("mod_len", .uint64)
]

/-! ## The GUID table (types.go, lines 224-284) -/

def xCLSID_CorRuntimeHost : List Nat :=
  [0xcb, 0x2f, 0x67, 0x23, 0xab, 0x3a, 0x11, 0xd2, 0x9c, 0x40, 0x00, 0xc0, 0x4f, 0xa3, 0x0a, 0x3e]

def xIID_ICorRuntimeHost : List Nat :=
  [0xcb, 0x2f, 0x67, 0x22, 0xab, 0x3a, 0x11, 0xd2, 0x9c, 0x40, 0x00, 0xc0, 0x4f, 0xa3, 0x0a, 0x3e]

def xCLSID_CLRMetaHost : List Nat :=
  [0x92, 0x80, 0x18, 0x8d, 0x0e, 0x8e, 0x48, 0x67, 0xb3, 0xc, 0x7f, 0xa8, 0x38, 0x84, 0xe8, 0xde]

def xIID_ICLRMetaHost : List Nat :=
  [0xD3, 0x32, 0xDB, 0x9E, 0xB9, 0xB3, 0x41, 0x25, 0x82, 0x07, 0xA1, 0x48, 0x84, 0xF5, 0x32, 0x16]

def xIID_ICLRRuntimeInfo : List Nat :=
  [0xBD, 0x39, 0xD1, 0xD2, 0xBA, 0x2F, 0x48, 0x6a, 0x89, 0xB0, 0xB4, 0xB0, 0xCB, 0x46, 0x68, 0x91]

def xIID_AppDomain : List Nat :=
  [0x05, 0xF6, 0x96, 0xDC, 0x2B, 0x29, 0x36, 0x63, 0xAD, 0x8B, 0xC4, 0x38, 0x9C, 0xF2, 0xA7, 0x13]

def xIID_IUnknown : List Nat :=
  [0x00, 0x00, 0x00, 0x00, 0x00, 0x00, 0x00, 0x00, 0xC0, 0x00, 0x00, 0x00, 0x00, 0x00, 0x00, 0x46]

def xIID_IDispatch : List Nat :=
  [0x00, 0x02, 0x04, 0x00, 0x00, 0x00, 0x00, 0x00, 0xC0, 0x00, 0x00, 0x00, 0x00, 0x00, 0x00, 0x46]

def xIID_IHost : List Nat :=
  [0x91, 0xaf, 0xbd, 0x1b, 0x5f, 0xeb, 0x43, 0xf5, 0xb0, 0x28, 0xe2, 0xca, 0x96, 0x06, 0x17, 0xec]

def xIID_IActiveScript : List Nat :=
  [0xbb, 0x1a, 0x2a, 0xe1, 0xa4, 0xf9, 0x11, 0xcf, 0x8f, 0x20, 0x00, 0x80, 0x5f, 0x2c, 0xd0, 0x64]

def xIID_IActiveScriptSite : List Nat :=
  [0xdb, 0x01, 0xa1, 0xe3, 0xa4, 0x2b, 0x11, 0xcf, 0x8f, 0x20, 0x00, 0x80, 0x5f, 0x2c, 0xd0, 0x64]

def xIID_IActiveScriptSiteWindow : List Nat :=
  [0xd1, 0x0f, 0x67, 0x61, 0x83, 0xe9, 0x11, 0xcf, 0x8f, 0x20, 0x00, 0x80, 0x5f, 0x2c, 0xd0, 0x64]

def xIID_IActiveScriptParse32 : List Nat :=
  [0xbb, 0x1a, 0x2a, 0xe2, 0xa4, 0xf9, 0x11, 0xcf, 0x8f, 0x20, 0x00, 0x80, 0x5f, 0x2c, 0xd0, 0x64]

def xIID_IActiveScriptParse64 : List Nat :=
  [0xc7, 0xef, 0x76, 0x58, 0xe1, 0xee, 0x48, 0x0e, 0x97, 0xea, 0xd5, 0x2c, 0xb4, 0xd7, 0x6d, 0x17]

def xCLSID_VBScript : List Nat :=
  [0xB5, 0x4F, 0x37, 0x41, 0x5B, 0x07, 0x11, 0xcf, 0xA4, 0xB0, 0x00, 0xAA, 0x00, 0x4A, 0x55, 0xE8]

def xCLSID_JScript : List Nat :=
  [0xF4, 0x14, 0xC2, 0x60, 0x6A, 0xC0, 0x11, 0xCF, 0xB6, 0xD1, 0x00, 0xAA, 0x00, 0xBB, 0xBB, 0x58]

def xCLSID_DOMDocument30 : List Nat :=
  [0xf5, 0x07, 0x8f, 0x32, 0xc5, 0x51, 0x11, 0xd3, 0x89, 0xb9, 0x00, 0x00, 0xf8, 0x1f, 0xe2, 0x21]

def xIID_IXMLDOMDocument : List Nat :=
  [0x29, 0x33, 0xBF, 0x81, 0x7B, 0x36, 0x11, 0xD2, 0xB2, 0x0E, 0x00, 0xC0, 0x4F, 0x98, 0x3E, 0x60]

def xIID_IXMLDOMNode : List Nat :=
  [0x29, 0x33, 0xbf, 0x80, 0x7b, 0x36, 0x11, 0xd2, 0xb2, 0x0e, 0x00, 0xc0, 0x4f, 0x98, 0x3e, 0x60]

/-- The GUID constants required to load .NET assemblies, in declaration order. -/
def clrGuids : List (List Nat) :=
  [xCLSID_CorRuntimeHost, xIID_ICorRuntimeHost, xCLSID_CLRMetaHost, xIID_ICLRMetaHost,
   xIID_ICLRRuntimeInfo, xIID_AppDomain]

/-- The GUID constants required to load VBS and JS files, in declaration order. -/
def scriptGuids : List (List Nat) :=
  [xIID_IUnknown, xIID_IDispatch, xIID_IHost, xIID_IActiveScript, xIID_IActiveScriptSite,
   xIID_IActiveScriptSiteWindow, xIID_IActiveScriptParse32, xIID_IActiveScriptParse64,
   xCLSID_VBScript, xCLSID_JScript]

/-- The GUID constants required to load XSL files, in declaration order. -/
def xslGuids : List (List Nat) :=
  [xCLSID_DOMDocument30, xIID_IXMLDOMDocument, xIID_IXMLDOMNode]

/-- The whole GUID table: every GUID constant of the `var` block. -/
def guidTable : List (List Nat) := clrGuids ++ scriptGuids ++ xslGuids

/-- The width in bytes of the field with the given name in a field list. -/
def fieldSize (intSize : Nat) (fields : List (String × GoType)) (name : String) : Option Nat :=
  (fieldType fields name).map (GoType.size intSize)

/-! ## The byte-order convention of the spec (section 6) -/

/-- Follows the spec's words: the little-endian bytes of a `w`-byte unsigned
integer, least significant byte first. -/
def leBytes : Nat → Nat → List Nat
  | 0, _ => []
  | w + 1, v => v % 256 :: leBytes w (v / 256)

/-- The big-endian bytes of a `w`-byte unsigned integer, most significant
byte first. -/
def beBytes (w v : Nat) : List Nat := (leBytes w v).reverse

/-- Follows the spec's words: the 16 bytes of the GUID
`{Data1-Data2-Data3-Data4}` with its multi-byte integer fields little-endian:
`Data1` in bytes 0-3, `Data2` in bytes 4-5, `Data3` in bytes 6-7, then the
eight bytes of `Data4` as written. -/
def guidLittleEndian (data1 data2 data3 : Nat) (data4 : List Nat) : List Nat :=
  leBytes 4 data1 ++ leBytes 2 data2 ++ leBytes 2 data3 ++ data4

/-- The 16 bytes of the GUID `{Data1-Data2-Data3-Data4}` in the order they
are written in its text form (the integer fields big-endian). -/
def guidBigEndian (data1 data2 data3 : Nat) (data4 : List Nat) : List Nat :=
  beBytes 4 data1 ++ beBytes 2 data2 ++ beBytes 2 data3 ++ data4

end Donut

namespace Donut

/-! ## Helper lemmas -/

/-- The catalog names five distinct modules. -/
theorem catalog_modules_length :
    ((api_imports.map API_IMPORT.Module).dedup).length = 5 := by decide

/-- A duplicate-free list of names, each the module of some entry of a list
of catalog entries, has at most five elements. -/
theorem nodup_modules_length_le (sub : List API_IMPORT) (hsub : sub ⊆ api_imports)
    (dlls : List String) (hnd : dlls.Nodup)
    (hmem : ∀ d ∈ dlls, ∃ a ∈ sub, a.Module = d) : dlls.length ≤ 5 := by
  have hincl : dlls ⊆ (api_imports.map API_IMPORT.Module).dedup := by
    intro d hd
    obtain ⟨a, ha, rfl⟩ := hmem d hd
    exact List.mem_dedup.mpr (List.mem_map_of_mem _ (hsub ha))
  have hle := (List.subperm_of_subset hnd hincl).length_le
  rw [catalog_modules_length] at hle
  exact hle

/-! ## The import catalog and the instance tables -/

/-- C1: the built-in import catalog `api_imports` fits the instance hash
table. `DonutInstance.Hash` is `[64]uint64`, the catalog has at most 64
entries, so every catalog index is a valid index of `Hash`, and each slot is
8 bytes (64 bits) wide. -/
theorem api_imports_fits_hash_table (CipherKeyLen CipherBlockLen intSize : Nat) :
    fieldType (DonutInstance CipherKeyLen CipherBlockLen) "Hash"
        = some (GoType.array 64 GoType.uint64) ∧
      (GoType.array 64 GoType.uint64).arrayLen = some 64 ∧
      api_imports.length ≤ 64 ∧
      (∀ i : Fin api_imports.length,
        (GoType.array 64 GoType.uint64).hasIndex i.val = true) ∧
      GoType.size intSize GoType.uint64 * 8 = 64 := by
  refine ⟨rfl, rfl, by decide, ?_, rfl⟩
  intro i
  have hi : i.val < 64 := Nat.lt_of_lt_of_le i.isLt (by decide)
  simp [GoType.hasIndex, hi]

/-- C2: for every sub-list `sub` of `api_imports`, the deduplicated module
names of `sub` are at most `DONUT_MAX_DLL = 8`, the number of slots of
`DonutInstance.DllName`. The bound holds for `List.dedup` and for every
duplicate-free list `dlls` of module names drawn from `sub`, so it does not
depend on how the names are deduplicated. -/
theorem dll_list_fits_slots (CipherKeyLen CipherBlockLen : Nat)
    (sub : List API_IMPORT) (hsub : sub.Sublist api_imports)
    (dlls : List String) (hnd : dlls.Nodup)
    (hmem : ∀ d ∈ dlls, ∃ a ∈ sub, a.Module = d) :
    DONUT_MAX_DLL = 8 ∧
      (fieldType (DonutInstance CipherKeyLen CipherBlockLen) "DllName").bind GoType.arrayLen
        = some DONUT_MAX_DLL ∧
      ((sub.map API_IMPORT.Module).dedup).length ≤ DONUT_MAX_DLL ∧
      dlls.length ≤ DONUT_MAX_DLL := by
  have h8 : (5 : Nat) ≤ DONUT_MAX_DLL := by decide
  refine ⟨rfl, rfl, ?_, ?_⟩
  · refine Nat.le_trans (nodup_modules_length_le sub hsub.subset _ (List.nodup_dedup _) ?_) h8
    intro d hd
    obtain ⟨a, ha, hda⟩ := List.mem_map.mp (List.mem_dedup.mp hd)
    exact ⟨a, ha, hda⟩
  · exact Nat.le_trans (nodup_modules_length_le sub hsub.subset dlls hnd hmem) h8

/-- Witness of C2: the first eleven catalog entries (ten of kernel32.dll and
one of oleaut32.dll) and the two names they use. -/
theorem dll_list_fits_slots_witness :
    (List.take 11 api_imports).Sublist api_imports ∧
      [KERNEL32_DLL, OLEAUT32_DLL].Nodup ∧
      (∀ d ∈ [KERNEL32_DLL, OLEAUT32_DLL], ∃ a ∈ List.take 11 api_imports, a.Module = d) ∧
      (DONUT_MAX_DLL = 8 ∧
        (fieldType (DonutInstance 16 16) "DllName").bind GoType.arrayLen = some DONUT_MAX_DLL ∧
        (((List.take 11 api_imports).map API_IMPORT.Module).dedup).length ≤ DONUT_MAX_DLL ∧
        [KERNEL32_DLL, OLEAUT32_DLL].length ≤ DONUT_MAX_DLL) :=
  ⟨by decide, by decide, by decide,
    dll_list_fits_slots 16 16 (List.take 11 api_imports) (by decide)
      [KERNEL32_DLL, OLEAUT32_DLL] (by decide) (by decide)⟩

/-! ## The plaintext header -/

/-- C3, as the claim states it, fails: with `CipherKeyLen = 16`,
`CipherBlockLen = 16` and an 8-byte `int`, the field `DonutInstance.Len` is
not 8 bytes wide. -/
theorem instance_len_not_eight_bytes :
    ¬ (fieldSize 8 (DonutInstance 16 16) "Len" = some 8) := by decide

/-- C3, amended: `DonutInstance.Len`, the first header field, is a `uint32`
and occupies 4 bytes; it is followed in order by the key (`Mk` of
`CipherKeyLen` bytes, `Ctr` of `CipherBlockLen` bytes), the 8-byte hash IV
and the hash table of 64 entries of 8 bytes. -/
theorem instance_header_layout (CipherKeyLen CipherBlockLen intSize : Nat) :
    (DonutInstance CipherKeyLen CipherBlockLen).take 4
        = [("Len", GoType.uint32),
           ("Key", GoType.struct [("Mk", GoType.array CipherKeyLen GoType.byte),
                                  ("Ctr", GoType.array CipherBlockLen GoType.byte)]),
           ("Iv", GoType.array 8 GoType.byte),
           ("Hash", GoType.array 64 GoType.uint64)] ∧
      fieldSize intSize (DonutInstance CipherKeyLen CipherBlockLen) "Len" = some 4 ∧
      fieldSize intSize (DonutInstance CipherKeyLen CipherBlockLen) "Key"
        = some (CipherKeyLen + CipherBlockLen) ∧
      fieldSize intSize (DonutInstance CipherKeyLen CipherBlockLen) "Iv" = some 8 ∧
      fieldSize intSize (DonutInstance CipherKeyLen CipherBlockLen) "Hash" = some (64 * 8) := by
  refine ⟨rfl, rfl, ?_, rfl, rfl⟩
  simp [fieldSize, fieldType, DonutInstance, DonutCrypt, GoType.size, GoType.size.sizeFields]

/-! ## The GUID table -/

/-- C4, evaluated on `xIID_IDispatch`, the GUID
`{00020400-0000-0000-C000-000000000046}`: the constant holds the bytes in
text order (`Data1` big-endian), its first four bytes are `00 02 04 00` and
not `00 04 02 00`, and it differs from the little-endian layout. -/
theorem xIID_IDispatch_bytes_not_little_endian :
    xIID_IDispatch.take 4 = [0x00, 0x02, 0x04, 0x00] ∧
      xIID_IDispatch.take 4 ≠ [0x00, 0x04, 0x02, 0x00] ∧
      leBytes 4 0x00020400 = [0x00, 0x04, 0x02, 0x00] ∧
      xIID_IDispatch = guidBigEndian 0x00020400 0 0 [0xC0, 0, 0, 0, 0, 0, 0, 0x46] ∧
      xIID_IDispatch ≠ guidLittleEndian 0x00020400 0 0 [0xC0, 0, 0, 0, 0, 0, 0, 0x46] := by
  decide

/-- C9: the 19 GUID constants of the table (6 for .NET, 10 for scripts,
among them `xIID_IUnknown`, `xIID_IDispatch`, `xCLSID_VBScript` and
`xCLSID_JScript`, and 3 for XSL) are 16-byte values and pairwise distinct. -/
theorem guid_table_pairwise_distinct :
    clrGuids.length = 6 ∧ scriptGuids.length = 10 ∧ xslGuids.length = 3 ∧
      guidTable.length = 19 ∧
      xIID_IUnknown ∈ scriptGuids ∧ xIID_IDispatch ∈ scriptGuids ∧
      xCLSID_VBScript ∈ scriptGuids ∧ xCLSID_JScript ∈ scriptGuids ∧
      guidTable.map List.length = List.replicate 19 16 ∧
      guidTable.all (fun g => g.all (fun b => decide (b < 256))) = true ∧
      List.Pairwise (fun g h => g ≠ h) guidTable := by
  decide

/-! ## The fixed parameters -/

/-- C5: the keyed-hash parameters are `MARU_BLK_LEN = 16`,
`MARU_HASH_LEN = 8`, `MARU_IV_LEN = 8`, `MARU_MAX_STR = 64`;
`DonutInstance.Iv` is an array of `MARU_IV_LEN` bytes and every slot of
`DonutInstance.Hash` is a `uint64` of `MARU_HASH_LEN` bytes. -/
theorem maru_parameters (CipherKeyLen CipherBlockLen intSize : Nat) :
    MARU_BLK_LEN = 16 ∧ MARU_HASH_LEN = 8 ∧ MARU_IV_LEN = 8 ∧ MARU_MAX_STR = 64 ∧
      fieldType (DonutInstance CipherKeyLen CipherBlockLen) "Iv"
        = some (GoType.array MARU_IV_LEN GoType.byte) ∧
      fieldSize intSize (DonutInstance CipherKeyLen CipherBlockLen) "Iv" = some MARU_IV_LEN ∧
      (fieldType (DonutInstance CipherKeyLen CipherBlockLen) "Hash").bind GoType.elem
        = some GoType.uint64 ∧
      GoType.size intSize GoType.uint64 = MARU_HASH_LEN :=
  ⟨rfl, rfl, rfl, rfl, rfl, rfl, rfl, rfl⟩

/-- C6: `DONUT_MAX_PARAM = 8`, and `DonutModule.Param` is an array of exactly
`DONUT_MAX_PARAM` buffers of `DONUT_MAX_NAME` 16-bit characters each, so an
index `i` has a buffer exactly when `i < 8`. -/
theorem module_param_buffers (intSize : Nat) :
    DONUT_MAX_PARAM = 8 ∧
      fieldType DonutModule "Param"
        = some (GoType.array DONUT_MAX_PARAM (GoType.array DONUT_MAX_NAME GoType.uint16)) ∧
      (GoType.array DONUT_MAX_PARAM (GoType.array DONUT_MAX_NAME GoType.uint16)).arrayLen
        = some DONUT_MAX_PARAM ∧
      (GoType.array DONUT_MAX_NAME GoType.uint16).arrayLen = some DONUT_MAX_NAME ∧
      GoType.size intSize GoType.uint16 * 8 = 16 ∧
      (∀ i : Nat,
        (GoType.array DONUT_MAX_PARAM (GoType.array DONUT_MAX_NAME GoType.uint16)).hasIndex i
          = true ↔ i < 8) := by
  refine ⟨rfl, rfl, rfl, rfl, rfl, ?_⟩
  intro i
  simp [GoType.hasIndex, DONUT_MAX_PARAM]

/-! ## Lengths of the catalog strings -/

/-- C7: for every entry of `api_imports`, the keyed-hash input
`Module + "!" + Name`, and `Name` alone, is at most `MARU_MAX_STR = 64`
bytes long. -/
theorem hash_input_within_maru_max_str (a : API_IMPORT) (ha : a ∈ api_imports) :
    MARU_MAX_STR = 64 ∧ goLen (hashInput a) ≤ MARU_MAX_STR ∧ goLen a.Name ≤ MARU_MAX_STR := by
  have key : ∀ b ∈ api_imports,
      goLen (hashInput b) ≤ MARU_MAX_STR ∧ goLen b.Name ≤ MARU_MAX_STR := by decide
  exact ⟨rfl, key a ha⟩

/-- Witness of C7: the entry with the longest input,
`oleaut32.dll!SafeArrayCreateVector`. -/
theorem hash_input_within_maru_max_str_witness :
    ({ Module := OLEAUT32_DLL, Name := "SafeArrayCreateVector" } : API_IMPORT) ∈ api_imports ∧
      (MARU_MAX_STR = 64 ∧
        goLen (hashInput { Module := OLEAUT32_DLL, Name := "SafeArrayCreateVector" })
          ≤ MARU_MAX_STR ∧
        goLen "SafeArrayCreateVector" ≤ MARU_MAX_STR) :=
  ⟨by decide,
    hash_input_within_maru_max_str
      { Module := OLEAUT32_DLL, Name := "SafeArrayCreateVector" } (by decide)⟩

/-- C8: the keyed-hash inputs of the catalog are pairwise distinct: at two
different indices `i` and `j` of `api_imports` the strings
`Module + "!" + Name` differ, and so do the entries. -/
theorem hash_inputs_pairwise_distinct (i j : Nat)
    (hi : i < api_imports.length) (hj : j < api_imports.length) (hij : i ≠ j) :
    hashInput (api_imports.get ⟨i, hi⟩) ≠ hashInput (api_imports.get ⟨j, hj⟩) ∧
      api_imports.get ⟨i, hi⟩ ≠ api_imports.get ⟨j, hj⟩ := by
  have hnd : (api_imports.map hashInput).Nodup := by decide
  have hne : hashInput (api_imports.get ⟨i, hi⟩) ≠ hashInput (api_imports.get ⟨j, hj⟩) := by
    intro heq
    have hi2 : i < (api_imports.map hashInput).length := by simpa using hi
    have hj2 : j < (api_imports.map hashInput).length := by simpa using hj
    have h := (List.Nodup.get_inj_iff hnd (i := ⟨i, hi2⟩) (j := ⟨j, hj2⟩)).mp
      (by simpa using heq)
    exact hij (Fin.mk.inj_iff.mp h)
  exact ⟨hne, fun h => hne (congrArg hashInput h)⟩

/-- Witness of C8: the first two entries, `kernel32.dll!LoadLibraryA` and
`kernel32.dll!GetProcAddress`. -/
theorem hash_inputs_pairwise_distinct_witness :
    0 < api_imports.length ∧ 1 < api_imports.length ∧ (0 : Nat) ≠ 1 ∧
      hashInput (api_imports.get ⟨0, by decide⟩) = "kernel32.dll!LoadLibraryA" ∧
      hashInput (api_imports.get ⟨1, by decide⟩) = "kernel32.dll!GetProcAddress" ∧
      (hashInput (api_imports.get ⟨0, by decide⟩) ≠ hashInput (api_imports.get ⟨1, by decide⟩) ∧
        api_imports.get ⟨0, by decide⟩ ≠ api_imports.get ⟨1, by decide⟩) :=
  ⟨by decide, by decide, by decide, by decide, by decide,
    hash_inputs_pairwise_distinct 0 1 (by decide) (by decide) (by decide)⟩

/-- C10: every DLL name constant (`NTDLL_DLL` through `SHLWAPI_DLL`), and
every `Module` occurring in `api_imports`, is at most 31 bytes long, so that
with a terminating zero byte it fits one slot of `DonutInstance.DllName`,
which is 32 bytes. -/
theorem dll_name_fits_slot (CipherKeyLen CipherBlockLen intSize : Nat) (s : String)
    (hs : s ∈ dllNameConstants ∨ s ∈ api_imports.map API_IMPORT.Module) :
    goLen s ≤ 31 ∧
      ((fieldType (DonutInstance CipherKeyLen CipherBlockLen) "DllName").bind GoType.elem).map
        (GoType.size intSize) = some 32 ∧
      goLen s + 1 ≤ 32 := by
  have hconst : ∀ t ∈ dllNameConstants, goLen t ≤ 31 := by decide
  have hmod : ∀ t ∈ api_imports.map API_IMPORT.Module, t ∈ dllNameConstants := by decide
  have hlen : goLen s ≤ 31 := by
    rcases hs with h | h
    · exact hconst s h
    · exact hconst s (hmod s h)
  exact ⟨hlen, rfl, Nat.succ_le_succ hlen⟩

/-- Witness of C10: `kernel32.dll`, a constant and a catalog module. -/
theorem dll_name_fits_slot_witness :
    (KERNEL32_DLL ∈ dllNameConstants ∨ KERNEL32_DLL ∈ api_imports.map API_IMPORT.Module) ∧
      (goLen KERNEL32_DLL ≤ 31 ∧
        ((fieldType (DonutInstance 16 16) "DllName").bind GoType.elem).map (GoType.size 8)
          = some 32 ∧
        goLen KERNEL32_DLL + 1 ≤ 32) :=
  ⟨by decide, dll_name_fits_slot 16 16 8 KERNEL32_DLL (by decide)⟩

end Donut
